import Mathlib

/-!
Shallow embedding of the gee-orm core: the session SQL builder
(raw.go), the engine constructor (geeorm.go) and the leveled logging
sink (log.go).  Go's mutable state is made explicit: every operation
returns the updated state.  The database handle is modelled as an
oracle recording how the driver answers each binding-path call, and
log emissions are returned as an explicit event list.
-/

namespace GeeOrm

/-- A parameter value bound to a SQL placeholder (Go: an interface value). -/
inductive Value where
  | str (s : String)
  | int (n : Int)
  | null
deriving DecidableEq

/-- Result of a data-modifying statement (Go: sql.Result). -/
structure ExecResult where
  lastInsertId : Int
  rowsAffected : Int
deriving DecidableEq

/-- A single-row cursor (Go: a sql.Row pointer).  A driver failure or the
no-rows condition travels inside the cursor and surfaces only when the
caller inspects it, never as a separate error value of the call. -/
structure Row where
  err : Option String
  cols : List Value
deriving DecidableEq

/-- A multi-row cursor (Go: a sql.Rows pointer). -/
structure Rows where
  rows : List (List Value)
deriving DecidableEq

/-- One emission to the logging sink: an informational line carrying the
statement text and its parameters, or an error line. -/
inductive LogEvent where
  | info (msg : String) (vars : List Value)
  | error (msg : String)
deriving DecidableEq

/-- The database handle (Go: a sql.DB pointer), modelled as an oracle
giving the driver's answer to each call.  Exec, QueryRow and Query
receive the SQL text and the parameter list as two separate arguments:
this is the driver's parameter-binding path.  Ping is the outcome of
the reachability check on this handle. -/
structure DB where
  Exec : String → List Value → Except String ExecResult
  QueryRow : String → List Value → Row
  Query : String → List Value → Except String Rows
  Ping : Option String

/-- Session (raw.go): the database handle, the SQL text buffer being
accumulated, and the ordered bound-parameter sequence. -/
structure Session where
  db : DB
  sql : String
  sqlVars : List Value

/-- New (raw.go): a fresh session holding the given handle, with the
zero values of the buffer and the parameter slice. -/
def New (db : DB) : Session :=
  { db := db, sql := "", sqlVars := [] }

/-- Clear (raw.go): reset the SQL buffer and drop the parameter slice. -/
def Session.Clear (s : Session) : Session :=
  { s with sql := "", sqlVars := [] }

/-- DB accessor (raw.go): return the underlying handle. -/
def Session.DB (s : Session) : DB :=
  s.db

/-- Raw (raw.go): append the fragment and then a single separating space
to the buffer, append the values to the parameter slice, and return the
session for chaining. -/
def Session.Raw (s : Session) (sql : String) (values : List Value) : Session :=
  { s with sql := s.sql ++ sql ++ " ", sqlVars := s.sqlVars ++ values }

/-- Exec (raw.go): log the statement and parameters, run the buffered
statement through the handle's binding path, log a driver error, and
always clear the session on exit (the deferred Clear runs on both the
success and the failure path, after the results are fixed). -/
def Session.Exec (s : Session) :
    Except String ExecResult × Session × List LogEvent :=
  let r := (s.DB).Exec s.sql s.sqlVars
  (r, s.Clear,
    LogEvent.info s.sql s.sqlVars ::
      (match r with
       | .ok _ => []
       | .error e => [LogEvent.error e]))

/-- QueryRow (raw.go): log the statement and parameters, run the query
through the handle's binding path, and clear the session.  The return
type has no error component: whatever the driver put in the row cursor
is handed back for the caller to inspect. -/
def Session.QueryRow (s : Session) : Row × Session × List LogEvent :=
  ((s.DB).QueryRow s.sql s.sqlVars, s.Clear, [LogEvent.info s.sql s.sqlVars])

/-- QueryRows (raw.go): log the statement and parameters, run the query
through the handle's binding path, log a driver error, and always clear
the session on exit. -/
def Session.QueryRows (s : Session) :
    Except String Rows × Session × List LogEvent :=
  let r := (s.DB).Query s.sql s.sqlVars
  (r, s.Clear,
    LogEvent.info s.sql s.sqlVars ::
      (match r with
       | .ok _ => []
       | .error e => [LogEvent.error e]))

/-- A sequence of chained Raw calls, each a fragment with its values,
applied in order to a session. -/
def rawSeq (s : Session) (calls : List (String × List Value)) : Session :=
  calls.foldl (fun acc c => acc.Raw c.1 c.2) s

/-- The three terminal executions a session offers. -/
inductive Terminal where
  | exec
  | queryRow
  | queryRows
deriving DecidableEq

/-- The session state left behind by a terminal execution. -/
def runTerminal (s : Session) : Terminal → Session
  | .exec => (s.Exec).2.1
  | .queryRow => (s.QueryRow).2.1
  | .queryRows => (s.QueryRows).2.1

/-- Output target of a logger (log.go): the console or the discard sink. -/
inductive Target where
  | console
  | discard
deriving DecidableEq

/-- The output-target assignment of the two process-wide loggers
(log.go): the error channel and the informational channel. -/
structure LogState where
  errorOut : Target
  infoOut : Target
deriving DecidableEq

/-- InfoLevel (log.go): show informational and error output. -/
def InfoLevel : Nat := 0

/-- ErrorLevel (log.go): show only error output. -/
def ErrorLevel : Nat := 1

/-- Disabled (log.go): suppress all output. -/
def Disabled : Nat := 2

/-- SetLevel (log.go): first reset every logger's output back to the
console, then rewire to the discard sink each logger whose own level
lies strictly below the requested level. -/
def SetLevel (level : Nat) (st : LogState) : LogState :=
  let st1 : LogState := { st with errorOut := Target.console, infoOut := Target.console }
  let st2 : LogState :=
    if ErrorLevel < level then { st1 with errorOut := Target.discard } else st1
  if InfoLevel < level then { st2 with infoOut := Target.discard } else st2

/-- Engine (geeorm.go): wraps the opened database handle. -/
structure Engine where
  db : DB

/-- The driver-opening interface (Go: the database/sql package's Open).
Opening may fail; on success it yields a handle, which then answers the
Ping reachability check itself. -/
structure SqlPackage where
  Open : String → String → Except String DB

/-- NewEngine (geeorm.go): open the source through the driver, check
reachability with Ping, and either return the engine with a success log
or return no engine together with the error, logging it. -/
def NewEngine (pkg : SqlPackage) (driver source : String) :
    Option Engine × Option String × List LogEvent :=
  match pkg.Open driver source with
  | .error e => (none, some e, [LogEvent.error e])
  | .ok db =>
    match db.Ping with
    | some e => (none, some e, [LogEvent.error e])
    | none => (some { db := db }, none, [LogEvent.info "Connect database success" []])

/-- String concatenation is associative (by passing to the character lists). -/
lemma str_append_assoc (a b c : String) : a ++ b ++ c = a ++ (b ++ c) :=
  String.ext (by simp)

/-- The buffer produced by a sequence of Raw calls depends only on the
fragments, not on the parameter values. -/
lemma rawSeq_sql_congr :
    ∀ (calls1 calls2 : List (String × List Value)) (s1 s2 : Session),
      calls1.map Prod.fst = calls2.map Prod.fst → s1.sql = s2.sql →
      (rawSeq s1 calls1).sql = (rawSeq s2 calls2).sql := by
  intro calls1
  induction calls1 with
  | nil =>
    intro calls2 s1 s2 hf hs
    cases calls2 with
    | nil => simpa [rawSeq] using hs
    | cons c t => simp at hf
  | cons c t ih =>
    intro calls2 s1 s2 hf hs
    cases calls2 with
    | nil => simp at hf
    | cons c2 t2 =>
      simp only [List.map_cons, List.cons.injEq] at hf
      have h := ih t2 (s1.Raw c.1 c.2) (s2.Raw c2.1 c2.2) hf.2
        (by simp [Session.Raw, hs, hf.1])
      simpa [rawSeq] using h

/-- C1: for every session, every sequence of Raw calls and every
terminal execution (Exec, QueryRow or QueryRows), the SQL buffer and
the parameter sequence are empty immediately after the terminal call
returns; the handle's answer (success or error) is arbitrary here, so
this holds on both the success and the failure path. -/
theorem raw_terminal_clears (s : Session) (calls : List (String × List Value)) (t : Terminal) :
    (runTerminal (rawSeq s calls) t).sql = ""
    ∧ (runTerminal (rawSeq s calls) t).sqlVars = [] := by
  cases t <;> exact ⟨rfl, rfl⟩

/-- C2: two runs of the same fragment sequence that differ only in the
parameter values accumulate identical SQL text, and the execution
outcome is the handle's binding-path Exec applied to that
values-independent text with the parameters as a separate list — so a
parameter value never reaches the SQL text. -/
theorem raw_params_never_in_sql (s1 s2 : Session)
    (calls1 calls2 : List (String × List Value))
    (hf : calls1.map Prod.fst = calls2.map Prod.fst)
    (hs : s1.sql = s2.sql) :
    (rawSeq s1 calls1).sql = (rawSeq s2 calls2).sql
    ∧ ((rawSeq s1 calls1).Exec).1
        = (rawSeq s1 calls1).db.Exec ((rawSeq s2 calls2).sql) ((rawSeq s1 calls1).sqlVars) := by
  have h := rawSeq_sql_congr calls1 calls2 s1 s2 hf hs
  refine ⟨h, ?_⟩
  rw [← h]
  rfl

/-- A benign handle used to instantiate the theorems. -/
def dbOk : DB :=
  { Exec := fun _ _ => Except.ok { lastInsertId := 0, rowsAffected := 1 },
    QueryRow := fun _ _ => { err := none, cols := [] },
    Query := fun _ _ => Except.ok { rows := [] },
    Ping := none }

/-- A run binding an honest parameter. -/
def callsA : List (String × List Value) :=
  [("SELECT name FROM users WHERE id = ?", [Value.int 1])]

/-- The same fragments, binding a metacharacter-laden parameter. -/
def callsB : List (String × List Value) :=
  [("SELECT name FROM users WHERE id = ?", [Value.str "1 OR 1 = 1"])]

/-- C2 witness: at a concrete injection attempt the two buffers agree
and the driver receives the text and the hostile value separately. -/
theorem raw_params_never_in_sql_witness :
    (callsA.map Prod.fst = callsB.map Prod.fst ∧ (New dbOk).sql = (New dbOk).sql)
    ∧ ((rawSeq (New dbOk) callsA).sql = (rawSeq (New dbOk) callsB).sql
       ∧ ((rawSeq (New dbOk) callsA).Exec).1
           = (rawSeq (New dbOk) callsA).db.Exec ((rawSeq (New dbOk) callsB).sql)
               ((rawSeq (New dbOk) callsA).sqlVars)) :=
  ⟨⟨rfl, rfl⟩, raw_params_never_in_sql (New dbOk) (New dbOk) callsA callsB rfl rfl⟩

/-- C3: chaining Raw A then Raw B yields exactly the session obtained
by one Raw call on the two fragments joined by a single space with the
concatenated parameter lists, so the subsequent execution hands the
driver the same text and parameter sequence (indeed the whole Exec
outcome coincides). -/
theorem raw_chain_eq_single_raw (s : Session) (a b : String) (pa pb : List Value) :
    ((s.Raw a pa).Raw b pb) = s.Raw (a ++ " " ++ b) (pa ++ pb)
    ∧ (((s.Raw a pa).Raw b pb).Exec) = ((s.Raw (a ++ " " ++ b) (pa ++ pb)).Exec) := by
  have h : ((s.Raw a pa).Raw b pb) = s.Raw (a ++ " " ++ b) (pa ++ pb) := by
    simp [Session.Raw, str_append_assoc]
  exact ⟨h, by rw [h]⟩

/-- C4: after SetLevel Disabled both channels write to the discard
sink; after SetLevel ErrorLevel the informational channel writes to the
discard sink while the error channel writes to the console; after
SetLevel InfoLevel both channels write to the console. -/
theorem setLevel_targets (st : LogState) :
    SetLevel Disabled st = { errorOut := Target.discard, infoOut := Target.discard }
    ∧ SetLevel ErrorLevel st = { errorOut := Target.console, infoOut := Target.discard }
    ∧ SetLevel InfoLevel st = { errorOut := Target.console, infoOut := Target.console } :=
  ⟨rfl, rfl, rfl⟩

/-- C5: Raw appends exactly the fragment followed by one separating
space to the buffer, appends the values in order at the end of the
parameter sequence, and leaves the session's handle untouched (the Go
method mutates its receiver in place and returns it; state passing
models that same instance). -/
theorem raw_appends_fragment_space_params (s : Session) (sql : String) (values : List Value) :
    (s.Raw sql values).sql = s.sql ++ sql ++ " "
    ∧ (s.Raw sql values).sqlVars = s.sqlVars ++ values
    ∧ (s.Raw sql values).db = s.db :=
  ⟨rfl, rfl, rfl⟩

/-- C6: QueryRow hands back exactly the cursor produced by the handle's
binding path — its return type has no error component, so a no-rows
outcome (or any driver failure) carried inside the cursor is never an
error of the call and is left for the caller to inspect — while the
buffer and parameters are cleared on return. -/
theorem queryRow_no_error_and_clears (s : Session) :
    (s.QueryRow).1 = (s.DB).QueryRow s.sql s.sqlVars
    ∧ (s.QueryRow).2.1.sql = ""
    ∧ (s.QueryRow).2.1.sqlVars = []
    ∧ (∀ e, ((s.DB).QueryRow s.sql s.sqlVars).err = some e → ((s.QueryRow).1).err = some e) :=
  ⟨rfl, rfl, rfl, fun _ h => h⟩

/-- A handle whose single-row queries all come back with the no-rows
condition inside the cursor. -/
def dbNoRows : DB :=
  { dbOk with QueryRow := fun _ _ => { err := some "sql: no rows in result set", cols := [] } }

/-- A session about to run a single-row query that finds no rows. -/
def sNoRows : Session :=
  (New dbNoRows).Raw "SELECT name FROM users WHERE id = ?" [Value.int 7]

/-- C6 witness: on a concrete no-rows query the condition stays inside
the returned cursor and the session still comes back cleared. -/
theorem queryRow_no_error_and_clears_witness :
    ((sNoRows.DB).QueryRow sNoRows.sql sNoRows.sqlVars).err = some "sql: no rows in result set"
    ∧ ((sNoRows.QueryRow).1).err = some "sql: no rows in result set"
    ∧ (sNoRows.QueryRow).2.1.sql = ""
    ∧ (sNoRows.QueryRow).2.1.sqlVars = [] :=
  ⟨rfl,
    (queryRow_no_error_and_clears sNoRows).2.2.2 "sql: no rows in result set" rfl,
    (queryRow_no_error_and_clears sNoRows).2.1,
    (queryRow_no_error_and_clears sNoRows).2.2.1⟩

/-- C7: NewEngine returns no engine and the error, logging it, whenever
the open step fails or the reachability check fails; when both succeed
it returns an engine holding the opened handle and no error. -/
theorem newEngine_error_paths (pkg : SqlPackage) (driver source : String) :
    (∀ e, pkg.Open driver source = Except.error e →
        (NewEngine pkg driver source).1 = none
        ∧ (NewEngine pkg driver source).2.1 = some e
        ∧ LogEvent.error e ∈ (NewEngine pkg driver source).2.2)
    ∧ (∀ db e, pkg.Open driver source = Except.ok db → db.Ping = some e →
        (NewEngine pkg driver source).1 = none
        ∧ (NewEngine pkg driver source).2.1 = some e
        ∧ LogEvent.error e ∈ (NewEngine pkg driver source).2.2)
    ∧ (∀ db, pkg.Open driver source = Except.ok db → db.Ping = none →
        (NewEngine pkg driver source).1 = some { db := db }
        ∧ (NewEngine pkg driver source).2.1 = none) := by
  refine ⟨?_, ?_, ?_⟩
  · intro e h
    simp [NewEngine, h]
  · intro db e h1 h2
    simp [NewEngine, h1, h2]
  · intro db h1 h2
    simp [NewEngine, h1, h2]

/-- A package whose open step fails. -/
def pkgOpenFail : SqlPackage :=
  { Open := fun _ _ => Except.error "open failed" }

/-- A handle that fails its reachability check. -/
def dbBadPing : DB :=
  { dbOk with Ping := some "ping failed" }

/-- A package that opens a handle failing its reachability check. -/
def pkgPingFail : SqlPackage :=
  { Open := fun _ _ => Except.ok dbBadPing }

/-- A package whose open and reachability steps both succeed. -/
def pkgOk : SqlPackage :=
  { Open := fun _ _ => Except.ok dbOk }

/-- C7 witness: the three paths at concrete packages — open failure,
ping failure, and full success. -/
theorem newEngine_error_paths_witness :
    (pkgOpenFail.Open "sqlite3" "gee.db" = Except.error "open failed"
      ∧ (NewEngine pkgOpenFail "sqlite3" "gee.db").1 = none
      ∧ (NewEngine pkgOpenFail "sqlite3" "gee.db").2.1 = some "open failed"
      ∧ LogEvent.error "open failed" ∈ (NewEngine pkgOpenFail "sqlite3" "gee.db").2.2)
    ∧ (pkgPingFail.Open "sqlite3" "gee.db" = Except.ok dbBadPing
      ∧ dbBadPing.Ping = some "ping failed"
      ∧ (NewEngine pkgPingFail "sqlite3" "gee.db").1 = none
      ∧ (NewEngine pkgPingFail "sqlite3" "gee.db").2.1 = some "ping failed"
      ∧ LogEvent.error "ping failed" ∈ (NewEngine pkgPingFail "sqlite3" "gee.db").2.2)
    ∧ (pkgOk.Open "sqlite3" "gee.db" = Except.ok dbOk
      ∧ dbOk.Ping = none
      ∧ (NewEngine pkgOk "sqlite3" "gee.db").1 = some { db := dbOk }
      ∧ (NewEngine pkgOk "sqlite3" "gee.db").2.1 = none) :=
  ⟨⟨rfl, (newEngine_error_paths pkgOpenFail "sqlite3" "gee.db").1 "open failed" rfl⟩,
    ⟨rfl, rfl,
      (newEngine_error_paths pkgPingFail "sqlite3" "gee.db").2.1 dbBadPing "ping failed" rfl rfl⟩,
    ⟨rfl, rfl,
      (newEngine_error_paths pkgOk "sqlite3" "gee.db").2.2 dbOk rfl rfl⟩⟩

/-- C8: Clear is idempotent — clearing twice equals clearing once, and
one Clear already leaves an empty buffer and an empty parameter
sequence. -/
theorem clear_idempotent (s : Session) :
    ((s.Clear).Clear) = s.Clear
    ∧ (s.Clear).sql = ""
    ∧ (s.Clear).sqlVars = [] :=
  ⟨rfl, rfl, rfl⟩

/-- C9: New starts with an empty buffer and parameter sequence, the DB
accessor returns exactly the handle passed to New, and no session
operation — Raw, Clear, Exec, QueryRow or QueryRows — changes the
session's handle field. -/
theorem new_session_frame (db : DB) (s : Session) (sql : String) (values : List Value) :
    (New db).sql = ""
    ∧ (New db).sqlVars = []
    ∧ (New db).DB = db
    ∧ (s.Raw sql values).db = s.db
    ∧ (s.Clear).db = s.db
    ∧ ((s.Exec).2.1).db = s.db
    ∧ ((s.QueryRow).2.1).db = s.db
    ∧ ((s.QueryRows).2.1).db = s.db :=
  ⟨rfl, rfl, rfl, rfl, rfl, rfl, rfl, rfl⟩

/-- C10: SetLevel is history-independent — because it first resets both
loggers to the console, the resulting target assignment depends only on
the requested level, so a SetLevel following any earlier SetLevel (and
any starting state) leaves exactly the targets of the last call. -/
theorem setLevel_history_independent (l lp : Nat) (st stp : LogState) :
    SetLevel l (SetLevel lp st) = SetLevel l stp :=
  rfl

end GeeOrm

